import Mathlib

/-!
Verification development for the Celestis 2.0 Electron chat application.

The repository is a chat client (src/app.js, renderer process) talking to the
OpenRouter completion endpoint, with an Electron main process (src/main.js)
persisting a settings record, a VRM model validator (src/modules/vrmLoader.js)
and a cascading module-loading routine for the GLTFLoader class
(three-modules.js revisions embedded in the sources).

Each section below is a shallow embedding of one part of the source, followed
by theorems about it.  DOM access is modelled with Option values (a missing
element is none), the network with an explicit outcome value, the file system
with an explicit record of the two settings paths, and timers with discrete
millisecond time.
-/

namespace Celestis

/-! ## Chat data model (src/app.js)

A turn of conversationHistory is a role/content record; a chat message DOM
element carries its text and its CSS class (user / ai / system). -/

/-- One entry of CelestisAI.conversationHistory. -/
structure Turn where
  role : String
  content : String
deriving Repr, DecidableEq

/-- One child element of the chatMessages container: textContent and the CSS
class given to addMessage. -/
structure ChatMsg where
  content : String
  cssType : String
deriving Repr, DecidableEq

/-- The CelestisAI settings record (constructor of src/app.js, current
revision). -/
structure Settings where
  openrouterApiKey : String
  aiModel : String
  voiceLanguage : String
  rendererEngine : String
  rendererTimeoutMs : Nat
  avatarScroll : Bool
  avatarInChat : Bool
  initialTemplate : String
  previousRenderer : Option String
deriving Repr, DecidableEq

/-- The defaults assigned in the CelestisAI constructor. -/
def defaultSettings : Settings :=
  { openrouterApiKey := ""
    aiModel := "meta-llama/llama-4-maverick:free"
    voiceLanguage := "en-US"
    rendererEngine := "three"
    rendererTimeoutMs := 30000
    avatarScroll := true
    avatarInChat := false
    initialTemplate := "You are a helpful AI assistant in a VRM avatar application. Be friendly and engaging."
    previousRenderer := none }

/-- The renderer-side state touched by sendMessage, addMessage and
clearConversation.  textInput / chatMessages are none when the DOM element is
absent (document.getElementById returned null). -/
structure AppState where
  textInput : Option String
  chatMessages : Option (List ChatMsg)
  conversationHistory : List Turn
  settings : Settings
deriving Repr, DecidableEq

/-- The JavaScript String.prototype.trim used on the text input: drop
whitespace from both ends.  Written over the character list so that it
evaluates inside the kernel. -/
def jsTrim (s : String) : String :=
  ⟨((s.data.dropWhile Char.isWhitespace).reverse.dropWhile Char.isWhitespace).reverse⟩

/-- CelestisAI.addMessage: appends one div to the chatMessages container; a
missing container is logged and nothing happens. -/
def addMessage (st : AppState) (content cssType : String) : AppState :=
  match st.chatMessages with
  | none => st
  | some msgs => { st with chatMessages := some (msgs ++ [⟨content, cssType⟩]) }

/-- Outcome of the fetch to the OpenRouter endpoint: the promise rejects
(network failure), or an HTTP response arrives with its ok flag, status and
the completion text that data.choices[0].message.content would yield. -/
inductive FetchOutcome where
  | networkError
  | response (ok : Bool) (status : Nat) (content : String)
deriving Repr, DecidableEq

/-- The messages array CelestisAI.callOpenRouterAPI builds: the system
template followed by the whole conversationHistory. -/
def apiMessages (st : AppState) : List Turn :=
  ⟨"system", st.settings.initialTemplate⟩ :: st.conversationHistory

/-- CelestisAI.callOpenRouterAPI result: a thrown error when fetch rejects or
response.ok is false, otherwise the completion text. -/
def callOpenRouterAPI (f : FetchOutcome) : Except String String :=
  match f with
  | .networkError => .error "fetch failed"
  | .response ok status content =>
      if ok then .ok content
      else .error ("HTTP error! status: " ++ toString status)

/-- The inline chat message shown when no API key is configured. -/
def apiKeyPromptMsg : String := "Please set your OpenRouter API key in settings."

/-- The inline chat message shown when the request fails. -/
def apiErrorMsg : String :=
  "Error: Could not get AI response. Please check your API key and try again."

/-- CelestisAI.sendMessage (src/app.js).  Returns the new state together with
the list of HTTP requests issued (each recorded as the messages array that was
posted to the OpenRouter endpoint). -/
def sendMessage (st : AppState) (f : FetchOutcome) : AppState × List (List Turn) :=
  match st.textInput with
  | none => (st, [])
  | some raw =>
      let message := jsTrim raw
      if message = "" then (st, [])
      else if st.settings.openrouterApiKey = "" then
        (addMessage st apiKeyPromptMsg "system", [])
      else
        let st1 : AppState := { st with textInput := some "" }
        let st2 := addMessage st1 message "user"
        let st3 : AppState :=
          { st2 with conversationHistory := st2.conversationHistory ++ [⟨"user", message⟩] }
        let req := apiMessages st3
        match callOpenRouterAPI f with
        | .ok response =>
            let st4 := addMessage st3 response "ai"
            let st5 : AppState :=
              { st4 with
                  conversationHistory := st4.conversationHistory ++ [⟨"assistant", response⟩] }
            (st5, [req])
        | .error _ =>
            (addMessage st3 apiErrorMsg "system", [req])

/-- CelestisAI.clearConversation: resets conversationHistory, empties the
chatMessages container when present, then adds one system message. -/
def clearConversation (st : AppState) : AppState :=
  let st1 : AppState := { st with conversationHistory := [] }
  let st2 : AppState :=
    match st1.chatMessages with
    | none => st1
    | some _ => { st1 with chatMessages := some [] }
  addMessage st2 "Conversation cleared. The AI will continue using the initial template." "system"

/-! ### Helper lemmas about sendMessage -/

/-- addMessage never touches conversationHistory. -/
lemma addMessage_history (st : AppState) (c ty : String) :
    (addMessage st c ty).conversationHistory = st.conversationHistory := by
  unfold addMessage; cases st.chatMessages <;> rfl

/-- addMessage never touches the settings record. -/
lemma addMessage_settings (st : AppState) (c ty : String) :
    (addMessage st c ty).settings = st.settings := by
  unfold addMessage; cases st.chatMessages <;> rfl

/-- addMessage never touches the text input. -/
lemma addMessage_textInput (st : AppState) (c ty : String) :
    (addMessage st c ty).textInput = st.textInput := by
  unfold addMessage; cases st.chatMessages <;> rfl

/-- Once past the guards, the single request sendMessage issues is the system
template followed by the updated history, whatever the fetch outcome is. -/
lemma sendMessage_requests (st : AppState) (f : FetchOutcome) (raw : String)
    (hin : st.textInput = some raw) (hne : jsTrim raw ≠ "")
    (hkey : st.settings.openrouterApiKey ≠ "") :
    (sendMessage st f).2 =
      [⟨"system", st.settings.initialTemplate⟩ ::
        (st.conversationHistory ++ [⟨"user", jsTrim raw⟩])] := by
  unfold sendMessage
  rw [hin]
  simp only [hne, if_false, hkey, if_neg, ite_false]
  cases h : callOpenRouterAPI f <;>
    simp [h, apiMessages, addMessage_history, addMessage_settings]

/-- On a failed request the state keeps the pushed user turn, the settings and
the cleared input. -/
lemma sendMessage_failure_fields (st : AppState) (f : FetchOutcome) (raw : String)
    (hin : st.textInput = some raw) (hne : jsTrim raw ≠ "")
    (hkey : st.settings.openrouterApiKey ≠ "")
    (hfail : ∀ s c, f ≠ .response true s c) :
    (sendMessage st f).1.conversationHistory
        = st.conversationHistory ++ [⟨"user", jsTrim raw⟩]
    ∧ (sendMessage st f).1.settings = st.settings
    ∧ (sendMessage st f).1.textInput = some "" := by
  have herr : ∃ e, callOpenRouterAPI f = .error e := by
    cases f with
    | networkError => exact ⟨_, rfl⟩
    | response ok status content =>
        cases ok with
        | false => exact ⟨_, rfl⟩
        | true => exact absurd rfl (hfail status content)
  obtain ⟨e, he⟩ := herr
  unfold sendMessage
  rw [hin]
  simp [hne, hkey, he, addMessage_history, addMessage_settings, addMessage_textInput]

/-- Claim C1: with a non-empty trimmed input but an empty openrouterApiKey,
sendMessage appends exactly the API-key system prompt to the chat container
and returns: the input field keeps its value, conversationHistory is
unchanged, and no HTTP request is issued. -/
theorem sendMessage_missing_api_key (st : AppState) (f : FetchOutcome)
    (raw : String) (msgs : List ChatMsg)
    (hin : st.textInput = some raw) (hne : jsTrim raw ≠ "")
    (hkey : st.settings.openrouterApiKey = "")
    (hdom : st.chatMessages = some msgs) :
    sendMessage st f =
      ({ st with chatMessages := some (msgs ++ [⟨apiKeyPromptMsg, "system"⟩]) }, []) := by
  unfold sendMessage
  rw [hin]
  simp [hne, hkey, addMessage, hdom, hin]

/-- Witness for C1 at a concrete state. -/
theorem sendMessage_missing_api_key_witness :
    sendMessage
        { textInput := some " hello "
          chatMessages := some []
          conversationHistory := []
          settings := defaultSettings } .networkError =
      ({ textInput := some " hello "
         chatMessages := some [⟨apiKeyPromptMsg, "system"⟩]
         conversationHistory := []
         settings := defaultSettings }, []) :=
  sendMessage_missing_api_key _ _ " hello " [] rfl (by decide) rfl rfl

/-- Claim C9: when the text input trims to the empty string, sendMessage
changes nothing at all: same history, same chat container, same input field,
and no HTTP request. -/
theorem sendMessage_empty_input (st : AppState) (f : FetchOutcome) (raw : String)
    (hin : st.textInput = some raw) (he : jsTrim raw = "") :
    sendMessage st f = (st, []) := by
  unfold sendMessage
  rw [hin]
  simp [he]

/-- Witness for C9 at a concrete whitespace-only state. -/
theorem sendMessage_empty_input_witness :
    sendMessage
        { textInput := some "   "
          chatMessages := some []
          conversationHistory := []
          settings := defaultSettings } .networkError =
      ({ textInput := some "   "
         chatMessages := some []
         conversationHistory := []
         settings := defaultSettings }, []) :=
  sendMessage_empty_input _ _ "   " rfl (by decide)

/-- Claim C3: conversationHistory is ordered and append-only: a successful
sendMessage appends exactly one user turn then one assistant turn at the end,
every sendMessage outcome only ever extends the previous history (never
deduplicates, reorders or drops entries), and only clearConversation empties
it. -/
theorem conversationHistory_append_only (st : AppState) (f : FetchOutcome) :
    (∀ raw status content, st.textInput = some raw → jsTrim raw ≠ "" →
        st.settings.openrouterApiKey ≠ "" →
        f = .response true status content →
        (sendMessage st f).1.conversationHistory =
          st.conversationHistory ++ [⟨"user", jsTrim raw⟩, ⟨"assistant", content⟩])
    ∧ (∃ t, (sendMessage st f).1.conversationHistory = st.conversationHistory ++ t)
    ∧ (clearConversation st).conversationHistory = [] := by
  refine ⟨?_, ?_, ?_⟩
  · rintro raw status content hin hne hkey rfl
    unfold sendMessage
    rw [hin]
    simp [hne, hkey, callOpenRouterAPI, addMessage_history]
  · unfold sendMessage
    cases hin : st.textInput with
    | none => exact ⟨[], by simp⟩
    | some raw =>
        by_cases hne : jsTrim raw = ""
        · exact ⟨[], by simp [hne]⟩
        · by_cases hkey : st.settings.openrouterApiKey = ""
          · exact ⟨[], by simp [hne, hkey, addMessage_history]⟩
          · cases h : callOpenRouterAPI f with
            | ok response =>
                exact ⟨[⟨"user", jsTrim raw⟩, ⟨"assistant", response⟩],
                  by simp [hne, hkey, h, addMessage_history]⟩
            | error e =>
                exact ⟨[⟨"user", jsTrim raw⟩],
                  by simp [hne, hkey, h, addMessage_history]⟩
  · unfold clearConversation
    cases h : st.chatMessages <;> simp [h, addMessage_history]

/-- Witness for C3 at a concrete state and a successful response. -/
theorem conversationHistory_append_only_witness :
    (sendMessage
        { textInput := some " hi "
          chatMessages := some []
          conversationHistory := [⟨"user", "old"⟩]
          settings := { defaultSettings with openrouterApiKey := "k" } }
        (.response true 200 "hello there")).1.conversationHistory =
      [⟨"user", "old"⟩, ⟨"user", "hi"⟩, ⟨"assistant", "hello there"⟩] :=
  (conversationHistory_append_only _ _).1 " hi " 200 "hello there" rfl
    (by decide) (by decide) rfl

/-- Claim C5: with a non-empty message and an API key set, a failing request
(fetch rejects or response not ok) surfaces as the inline system error chat
message appended after the user message; sendMessage is total, so no
exception escapes and the chat stays usable. -/
theorem sendMessage_request_failure (st : AppState) (f : FetchOutcome)
    (raw : String) (msgs : List ChatMsg)
    (hin : st.textInput = some raw) (hne : jsTrim raw ≠ "")
    (hkey : st.settings.openrouterApiKey ≠ "")
    (hdom : st.chatMessages = some msgs)
    (hfail : ∀ s c, f ≠ .response true s c) :
    (sendMessage st f).1.chatMessages =
      some (msgs ++ [⟨jsTrim raw, "user"⟩, ⟨apiErrorMsg, "system"⟩]) := by
  have herr : ∃ e, callOpenRouterAPI f = .error e := by
    cases f with
    | networkError => exact ⟨_, rfl⟩
    | response ok status content =>
        cases ok with
        | false => exact ⟨_, rfl⟩
        | true => exact absurd rfl (hfail status content)
  obtain ⟨e, he⟩ := herr
  unfold sendMessage
  rw [hin]
  simp [hne, hkey, he, addMessage, hdom]

/-- Witness for C5 at a concrete state and an HTTP 500 response. -/
theorem sendMessage_request_failure_witness :
    (sendMessage
        { textInput := some "hi"
          chatMessages := some []
          conversationHistory := []
          settings := { defaultSettings with openrouterApiKey := "k" } }
        (.response false 500 "")).1.chatMessages =
      some [⟨"hi", "user"⟩, ⟨apiErrorMsg, "system"⟩] :=
  sendMessage_request_failure _ _ "hi" [] rfl (by decide) (by decide) rfl
    (by intro s c h; cases h)

/-- Claim C10: a user turn pushed before a failing request is not rolled
back: the history then ends with that user entry and no assistant entry, and
the one request issued by the next successful sendMessage contains the failed
turn in its messages array. -/
theorem failed_turn_not_rolled_back (st : AppState) (f g : FetchOutcome)
    (raw raw2 : String) (status2 : Nat) (content2 : String)
    (hin : st.textInput = some raw) (hne : jsTrim raw ≠ "")
    (hkey : st.settings.openrouterApiKey ≠ "")
    (hfail : ∀ s c, f ≠ .response true s c)
    (hg : g = .response true status2 content2) (hne2 : jsTrim raw2 ≠ "") :
    (sendMessage st f).1.conversationHistory
        = st.conversationHistory ++ [⟨"user", jsTrim raw⟩]
    ∧ (sendMessage { (sendMessage st f).1 with textInput := some raw2 } g).2 =
        [⟨"system", st.settings.initialTemplate⟩ ::
          (st.conversationHistory ++ [⟨"user", jsTrim raw⟩, ⟨"user", jsTrim raw2⟩])]
    ∧ ∀ req ∈ (sendMessage { (sendMessage st f).1 with textInput := some raw2 } g).2,
        Turn.mk "user" (jsTrim raw) ∈ req := by
  obtain ⟨hist1, hset1, -⟩ := sendMessage_failure_fields st f raw hin hne hkey hfail
  have hreq :
      (sendMessage { (sendMessage st f).1 with textInput := some raw2 } g).2 =
        [⟨"system", st.settings.initialTemplate⟩ ::
          (st.conversationHistory ++ [⟨"user", jsTrim raw⟩, ⟨"user", jsTrim raw2⟩])] := by
    have := sendMessage_requests { (sendMessage st f).1 with textInput := some raw2 } g raw2
      rfl hne2 (by simpa [hset1] using hkey)
    simpa [hset1, hist1] using this
  refine ⟨hist1, hreq, ?_⟩
  intro req hreqmem
  rw [hreq] at hreqmem
  simp only [List.mem_singleton] at hreqmem
  subst hreqmem
  simp

/-- Witness for C10: a failed send followed by a successful one. -/
theorem failed_turn_not_rolled_back_witness :
    (sendMessage
        { textInput := some "first"
          chatMessages := some []
          conversationHistory := []
          settings := { defaultSettings with openrouterApiKey := "k" } }
        .networkError).1.conversationHistory = [⟨"user", "first"⟩]
    ∧ (sendMessage
        { (sendMessage
            { textInput := some "first"
              chatMessages := some []
              conversationHistory := []
              settings := { defaultSettings with openrouterApiKey := "k" } }
            .networkError).1 with textInput := some "second" }
        (.response true 200 "ok")).2 =
        [[⟨"system", defaultSettings.initialTemplate⟩,
          ⟨"user", "first"⟩, ⟨"user", "second"⟩]]
    ∧ ∀ req ∈ (sendMessage
        { (sendMessage
            { textInput := some "first"
              chatMessages := some []
              conversationHistory := []
              settings := { defaultSettings with openrouterApiKey := "k" } }
            .networkError).1 with textInput := some "second" }
        (.response true 200 "ok")).2,
        Turn.mk "user" "first" ∈ req := by
  have h := failed_turn_not_rolled_back
    { textInput := some "first"
      chatMessages := some []
      conversationHistory := []
      settings := { defaultSettings with openrouterApiKey := "k" } }
    .networkError (.response true 200 "ok") "first" "second" 200 "ok"
    rfl (by decide) (by decide) (by intro s c hh; cases hh) rfl (by decide)
  simpa using h

/-! ## Settings persistence (src/main.js, save-settings and load-settings
IPC handlers)

The handlers touch two paths: settings.json inside the userData directory and
the development fallback ../settings.json next to the application.  The file
system is modelled as the contents of those two files; JSON serialization is
an abstract encode / decode pair, since the handlers use it opaquely through
JSON.stringify and JSON.parse. -/

/-- Contents of the two settings files (none when the file does not exist). -/
structure SettingsFS where
  userData : Option String
  repo : Option String
deriving Repr, DecidableEq

/-- Which of the two paths fs.writeFileSync can write. -/
structure FsCaps where
  userDataWritable : Bool
  repoWritable : Bool
deriving Repr, DecidableEq

/-- The save-settings handler: serialize the record wholesale to the userData
path, falling back to the repo path when that write throws; the Bool is the
IPC reply. -/
def saveSettings {σ : Type} (encode : σ → String) (caps : FsCaps)
    (fs : SettingsFS) (s : σ) : SettingsFS × Bool :=
  if caps.userDataWritable then ({ fs with userData := some (encode s) }, true)
  else if caps.repoWritable then ({ fs with repo := some (encode s) }, true)
  else (fs, false)

/-- The development-fallback half of load-settings: parse the repo file and
migrate a successful parse to the userData path (a failing migration write is
caught and ignored). -/
def loadFromRepo {σ : Type} (encode : σ → String) (decode : String → Option σ)
    (caps : FsCaps) (fs : SettingsFS) : Option σ × SettingsFS :=
  match fs.repo with
  | none => (none, fs)
  | some content =>
      match decode content with
      | none => (none, fs)
      | some s =>
          if caps.userDataWritable then (some s, { fs with userData := some (encode s) })
          else (some s, fs)

/-- The load-settings handler: parse the userData file first; on a missing or
unparsable file fall back to the repo file; when neither parses return null
(none) instead of raising. -/
def loadSettings {σ : Type} (encode : σ → String) (decode : String → Option σ)
    (caps : FsCaps) (fs : SettingsFS) : Option σ × SettingsFS :=
  match fs.userData with
  | none => loadFromRepo encode decode caps fs
  | some content =>
      match decode content with
      | some s => (some s, fs)
      | none => loadFromRepo encode decode caps fs

/-- Claim C4: saving a settings record S and then loading returns S, and the
saved userData file holds exactly the serialization of S, with no merge of
previously stored content.  The round-trip hypothesis is what JSON.parse
after JSON.stringify gives for a plain-data record. -/
theorem save_then_load_settings {σ : Type} (encode : σ → String)
    (decode : String → Option σ) (caps : FsCaps) (fs : SettingsFS) (s : σ)
    (hw : caps.userDataWritable = true)
    (hrt : decode (encode s) = some s) :
    (saveSettings encode caps fs s).1.userData = some (encode s)
    ∧ (saveSettings encode caps fs s).2 = true
    ∧ (loadSettings encode decode caps (saveSettings encode caps fs s).1).1 = some s := by
  refine ⟨?_, ?_, ?_⟩ <;> simp [saveSettings, loadSettings, hw, hrt]

/-- Witness for C4: overwriting stale contents at both paths. -/
theorem save_then_load_settings_witness :
    (saveSettings (fun s => s) ⟨true, false⟩ ⟨some "old", some "dev"⟩
        "rendererEngine-2d-record").1.userData = some "rendererEngine-2d-record"
    ∧ (saveSettings (fun s => s) ⟨true, false⟩ ⟨some "old", some "dev"⟩
        "rendererEngine-2d-record").2 = true
    ∧ (loadSettings (fun s => s) some ⟨true, false⟩
        (saveSettings (fun s => s) ⟨true, false⟩ ⟨some "old", some "dev"⟩
          "rendererEngine-2d-record").1).1 = some "rendererEngine-2d-record" :=
  save_then_load_settings (fun s => s) some ⟨true, false⟩
    ⟨some "old", some "dev"⟩ "rendererEngine-2d-record" rfl rfl

/-- Claim C7: load-settings reads the userData file first; only when it is
absent or unparsable does it fall back to the development path, migrating a
successfully parsed fallback to the userData path; when neither location
parses it returns none (the model is a total function, so nothing raises). -/
theorem loadSettings_priority_and_fallback {σ : Type} (encode : σ → String)
    (decode : String → Option σ) (caps : FsCaps) (fs : SettingsFS) :
    (∀ s, fs.userData.bind decode = some s →
        loadSettings encode decode caps fs = (some s, fs))
    ∧ (∀ s, fs.userData.bind decode = none → fs.repo.bind decode = some s →
        caps.userDataWritable = true →
        loadSettings encode decode caps fs =
          (some s, { fs with userData := some (encode s) }))
    ∧ (fs.userData.bind decode = none → fs.repo.bind decode = none →
        loadSettings encode decode caps fs = (none, fs)) := by
  refine ⟨?_, ?_, ?_⟩
  · intro s h
    cases hu : fs.userData with
    | none => simp [hu] at h
    | some c =>
        rw [hu] at h
        have hd : decode c = some s := h
        simp [loadSettings, hu, hd]
  · intro s h1 h2 hw
    have hrepo : ∃ c, fs.repo = some c ∧ decode c = some s := by
      cases hr : fs.repo with
      | none => rw [hr] at h2; simp at h2
      | some c => rw [hr] at h2; exact ⟨c, rfl, h2⟩
    obtain ⟨c, hr, hd⟩ := hrepo
    cases hu : fs.userData with
    | none => simp [loadSettings, loadFromRepo, hu, hr, hd, hw]
    | some cu =>
        rw [hu] at h1
        have h1d : decode cu = none := h1
        simp [loadSettings, loadFromRepo, hu, h1d, hr, hd, hw]
  · intro h1 h2
    have hrepo : loadFromRepo encode decode caps fs = (none, fs) := by
      cases hr : fs.repo with
      | none => simp [loadFromRepo, hr]
      | some c =>
          rw [hr] at h2
          have h2d : decode c = none := h2
          simp [loadFromRepo, hr, h2d]
    cases hu : fs.userData with
    | none => simpa [loadSettings, hu] using hrepo
    | some cu =>
        rw [hu] at h1
        have h1d : decode cu = none := h1
        simpa [loadSettings, hu, h1d] using hrepo

/-- Witness for C7: an unparsable userData file and a parsable development
file; the fallback parse is migrated to the userData path. -/
theorem loadSettings_priority_and_fallback_witness :
    loadSettings (fun s => s) (fun c => if c = "bad" then none else some c)
        ⟨true, true⟩ ⟨some "bad", some "good"⟩ =
      (some "good", ⟨some "good", some "good"⟩) :=
  (loadSettings_priority_and_fallback (fun s => s)
      (fun c => if c = "bad" then none else some c)
      ⟨true, true⟩ ⟨some "bad", some "good"⟩).2.1 "good" (by simp) (by simp) rfl

/-! ## VRM file validation (src/modules/vrmLoader.js) -/

/-- Little-endian 32-bit word from four bytes, as a Uint32Array view reads
the start of the buffer. -/
def leWord (b0 b1 b2 b3 : Nat) : Nat := b0 + 256 * (b1 + 256 * (b2 + 256 * b3))

/-- validateVRMFile over the byte list of the buffer.  textHas stands for the
TextDecoder-plus-includes check on the decoded prefix (third-party decoding,
abstracted as a predicate on the bytes it reads). -/
def validateVRMFile (textHas : List Nat → Bool) (buffer : List Nat) : Bool :=
  if buffer.length < 4 then false
  else
    let magic : Nat :=
      match buffer with
      | b0 :: b1 :: b2 :: b3 :: _ => leWord b0 b1 b2 b3
      | _ => 0
    if magic = 0x46546C67 then true
    else if 50 ≤ buffer.length then
      if textHas (buffer.take (min 1000 buffer.length)) then true
      else true
    else true

/-- Claim C8: validateVRMFile rejects exactly the buffers shorter than four
bytes; any longer buffer passes, whatever its magic number or decoded
content, so malformed input detection is left to the loader itself. -/
theorem validateVRMFile_length_only (textHas : List Nat → Bool)
    (buffer : List Nat) :
    validateVRMFile textHas buffer = decide (4 ≤ buffer.length) := by
  unfold validateVRMFile
  split_ifs <;> simp_all

/-! ## GLTFLoader acquisition cascade (ensureGLTFLoader, three-modules.js
revisions embedded in src/main.js)

The routine runs in an environment of exposed sources, fetch results, the
ESM-detection pattern verdicts and the attach outcomes of each import or
script injection; all of these are Booleans of the environment.  Strategies:
1 preload jsm blob import, 2 preload examples/js injection, 3 in-project
jsm fetch and blob import, 4 node_modules jsm fetch and blob import, and
5 node_modules examples/js UMD fetch and injection. -/

/-- Environment of one ensureGLTFLoader run. -/
structure GltfEnv where
  alreadyPresent : Bool
  preloadJsmAvail : Bool
  preloadJsmImportOk : Bool
  preloadJsAvail : Bool
  preloadJsLooksEsm : Bool
  preloadJsEsmImportOk : Bool
  preloadJsInjectOk : Bool
  inProjectFetchOk : Bool
  inProjectLooksEsm : Bool
  inProjectImportOk : Bool
  inProjectInjectOk : Bool
  nodeJsmFetchOk : Bool
  nodeJsmLooksEsm : Bool
  nodeJsmImportOk : Bool
  nodeJsmInjectOk : Bool
  nodeUmdFetchOk : Bool
  nodeUmdLooksEsm : Bool
  nodeUmdEsmImportOk : Bool
  nodeUmdInjectOk : Bool
deriving Repr, DecidableEq

/-- Result of the routine: the loader was already attached, a numbered
strategy attached it, or all attempts fell through (only a console warning,
THREE.GLTFLoader left unset). -/
inductive GltfOutcome where
  | alreadyPresent
  | attached (strategy : Nat)
  | unavailable
deriving Repr, DecidableEq

/-- Strategy 5 block: fetch the node_modules examples/js UMD file; when the
ESM pattern matches do a blob import, else inject it as a classic script;
fall through to the closing warning otherwise. -/
def gltfStep5 (e : GltfEnv) : GltfOutcome :=
  if e.nodeUmdFetchOk then
    if e.nodeUmdLooksEsm then
      if e.nodeUmdEsmImportOk then .attached 5 else .unavailable
    else
      if e.nodeUmdInjectOk then .attached 5 else .unavailable
  else .unavailable

/-- Strategy 4 block: fetch the node_modules jsm file; blob import when ESM,
else inject; fall through to strategy 5 otherwise. -/
def gltfStep4 (e : GltfEnv) : GltfOutcome :=
  if e.nodeJsmFetchOk then
    if e.nodeJsmLooksEsm then
      if e.nodeJsmImportOk then .attached 4 else gltfStep5 e
    else
      if e.nodeJsmInjectOk then .attached 4 else gltfStep5 e
  else gltfStep5 e

/-- Strategy 3 block: fetch the in-project jsm copy; blob import when ESM,
else inject; fall through to strategy 4 otherwise. -/
def gltfStep3 (e : GltfEnv) : GltfOutcome :=
  if e.inProjectFetchOk then
    if e.inProjectLooksEsm then
      if e.inProjectImportOk then .attached 3 else gltfStep4 e
    else
      if e.inProjectInjectOk then .attached 3 else gltfStep4 e
  else gltfStep4 e

/-- Strategy 2 block: the preload-provided examples/js content; blob import
when the ESM pattern matches, classic script injection otherwise; fall
through to strategy 3 otherwise. -/
def gltfStep2 (e : GltfEnv) : GltfOutcome :=
  if e.preloadJsAvail then
    if e.preloadJsLooksEsm then
      if e.preloadJsEsmImportOk then .attached 2 else gltfStep3 e
    else
      if e.preloadJsInjectOk then .attached 2 else gltfStep3 e
  else gltfStep3 e

/-- ensureGLTFLoader: early exit when the loader is already attached, then
strategy 1 (preload jsm blob import, needing both threeModuleSource and
loaderJsm.gltf), then the chained fallbacks. -/
def ensureGLTFLoader (e : GltfEnv) : GltfOutcome :=
  if e.alreadyPresent then .alreadyPresent
  else if e.preloadJsmAvail then
    if e.preloadJsmImportOk then .attached 1 else gltfStep2 e
  else gltfStep2 e

/-- Success of strategy k as the claim describes it: 1 blob import of the
preload jsm source, 2 classic injection of the preload examples/js (UMD)
source, 3 fetch and blob import of the in-project jsm copy, 4 fetch plus
blob import of the node_modules jsm file, 5 classic injection of the
node_modules examples/js UMD file. -/
def strategyOk (e : GltfEnv) : Nat → Bool
  | 1 => e.preloadJsmAvail && e.preloadJsmImportOk
  | 2 => e.preloadJsAvail && !e.preloadJsLooksEsm && e.preloadJsInjectOk
  | 3 => e.inProjectFetchOk && e.inProjectLooksEsm && e.inProjectImportOk
  | 4 => e.nodeJsmFetchOk && e.nodeJsmLooksEsm && e.nodeJsmImportOk
  | 5 => e.nodeUmdFetchOk && !e.nodeUmdLooksEsm && e.nodeUmdInjectOk
  | _ => false

/-- Modelled on the claim text: try the five strategies in the fixed order,
stop at the first one that attaches THREE.GLTFLoader, and when all five fail
only warn and leave the loader unset. -/
def ensureGLTFLoaderSpec (e : GltfEnv) : GltfOutcome :=
  if e.alreadyPresent then .alreadyPresent
  else
    match [1, 2, 3, 4, 5].find? (fun k => strategyOk e k) with
    | some k => .attached k
    | none => .unavailable

lemma gltfStep5_spec (e : GltfEnv) (h5 : e.nodeUmdLooksEsm = false) :
    gltfStep5 e = if strategyOk e 5 then .attached 5 else .unavailable := by
  cases hf : e.nodeUmdFetchOk <;> cases hi : e.nodeUmdInjectOk <;>
    simp [gltfStep5, strategyOk, h5, hf, hi]

lemma gltfStep4_spec (e : GltfEnv) (h4 : e.nodeJsmLooksEsm = true) :
    gltfStep4 e = if strategyOk e 4 then .attached 4 else gltfStep5 e := by
  cases hf : e.nodeJsmFetchOk <;> cases hi : e.nodeJsmImportOk <;>
    simp [gltfStep4, strategyOk, h4, hf, hi]

lemma gltfStep3_spec (e : GltfEnv) (h3 : e.inProjectLooksEsm = true) :
    gltfStep3 e = if strategyOk e 3 then .attached 3 else gltfStep4 e := by
  cases hf : e.inProjectFetchOk <;> cases hi : e.inProjectImportOk <;>
    simp [gltfStep3, strategyOk, h3, hf, hi]

lemma gltfStep2_spec (e : GltfEnv) (h2 : e.preloadJsLooksEsm = false) :
    gltfStep2 e = if strategyOk e 2 then .attached 2 else gltfStep3 e := by
  cases hf : e.preloadJsAvail <;> cases hi : e.preloadJsInjectOk <;>
    simp [gltfStep2, strategyOk, h2, hf, hi]

/-- Claim C6: under the expected module forms (the preload examples/js and
node_modules examples/js sources are UMD, the two jsm sources are ESM), the
code cascade equals the first-success-in-order specification: strategies are
tried in the order 1 to 5, the routine stops at the first that attaches, and
when all five fail it only warns and leaves THREE.GLTFLoader unset. -/
theorem ensureGLTFLoader_cascade (e : GltfEnv)
    (h2 : e.preloadJsLooksEsm = false)
    (h3 : e.inProjectLooksEsm = true)
    (h4 : e.nodeJsmLooksEsm = true)
    (h5 : e.nodeUmdLooksEsm = false) :
    ensureGLTFLoader e = ensureGLTFLoaderSpec e := by
  unfold ensureGLTFLoader ensureGLTFLoaderSpec
  cases hap : e.alreadyPresent
  · simp only [Bool.false_eq_true, if_false]
    rw [gltfStep2_spec e h2, gltfStep3_spec e h3, gltfStep4_spec e h4,
      gltfStep5_spec e h5]
    simp only [List.find?]
    cases ha1 : e.preloadJsmAvail <;> cases hi1 : e.preloadJsmImportOk <;>
      cases hs2 : strategyOk e 2 <;> cases hs3 : strategyOk e 3 <;>
      cases hs4 : strategyOk e 4 <;> cases hs5 : strategyOk e 5 <;>
      simp [strategyOk, ha1, hi1, hs2, hs3, hs4, hs5]
  · simp

/-- Witness for C6: strategies 1 and 2 unavailable or failing, strategy 3
succeeding; the cascade attaches via the in-project jsm copy. -/
theorem ensureGLTFLoader_cascade_witness :
    ensureGLTFLoader
        { alreadyPresent := false
          preloadJsmAvail := false
          preloadJsmImportOk := false
          preloadJsAvail := true
          preloadJsLooksEsm := false
          preloadJsEsmImportOk := false
          preloadJsInjectOk := false
          inProjectFetchOk := true
          inProjectLooksEsm := true
          inProjectImportOk := true
          inProjectInjectOk := false
          nodeJsmFetchOk := false
          nodeJsmLooksEsm := true
          nodeJsmImportOk := false
          nodeJsmInjectOk := false
          nodeUmdFetchOk := false
          nodeUmdLooksEsm := false
          nodeUmdEsmImportOk := false
          nodeUmdInjectOk := false } =
      ensureGLTFLoaderSpec
        { alreadyPresent := false
          preloadJsmAvail := false
          preloadJsmImportOk := false
          preloadJsAvail := true
          preloadJsLooksEsm := false
          preloadJsEsmImportOk := false
          preloadJsInjectOk := false
          inProjectFetchOk := true
          inProjectLooksEsm := true
          inProjectImportOk := true
          inProjectInjectOk := false
          nodeJsmFetchOk := false
          nodeJsmLooksEsm := true
          nodeJsmImportOk := false
          nodeJsmInjectOk := false
          nodeUmdFetchOk := false
          nodeUmdLooksEsm := false
          nodeUmdEsmImportOk := false
          nodeUmdInjectOk := false } :=
  ensureGLTFLoader_cascade _ rfl rfl rfl rfl

/-! ## Waiting for the 3D library (CelestisAI.waitForThreeAndLoaders)

src/app.js carries two revisions of waitForThreeAndLoaders.  The earlier one
(lines 86-133) arms a setTimeout with settings.rendererTimeoutMs and rejects
with a timeout error.  The current one (lines 1665-1738, the revision whose
helpers match the current preload surface) arms no timer: its closing comment
says to wait indefinitely, and only the threejs-ready listener or the 150 ms
poll can settle the promise.  Time is discrete in milliseconds: readyAt t
says whether moduleReady() holds at time t, eventAt t whether the
threejs-ready event fires at time t.  At equal deadlines the listener and the
interval callback run before the timeout callback, because they are
registered first. -/

/-- How the promise settles, or that it is still pending at the end of the
observed horizon. -/
inductive WaitOutcome where
  | resolved (t : Nat)
  | rejected (t : Nat) (msg : String)
  | pending
deriving Repr, DecidableEq

/-- The settle condition both revisions share at time t: the ready event
fires, or the 150 ms interval ticks and moduleReady() holds. -/
def settleReady (readyAt eventAt : Nat → Bool) (t : Nat) : Bool :=
  eventAt t || (decide (t % 150 = 0) && decide (t ≠ 0) && readyAt t)

/-- The rejection message of the earlier revision. -/
def timeoutMsgText : String := "Timeout waiting for THREE/Loaders"

/-- Millisecond scan of the earlier revision after the synchronous
quick-pass: resolve at the first settle time, reject once the timeout
deadline is reached. -/
def waitV1Go (readyAt eventAt : Nat → Bool) (timeoutMs : Nat) :
    Nat → Nat → WaitOutcome
  | 0, _ => .pending
  | fuel + 1, t =>
      if settleReady readyAt eventAt t then .resolved t
      else if timeoutMs ≤ t then .rejected t timeoutMsgText
      else waitV1Go readyAt eventAt timeoutMs fuel (t + 1)

/-- The earlier revision of waitForThreeAndLoaders (app.js lines 86-133):
quick-pass, listener, poll and a timeout timer. -/
def waitForThreeV1 (timeoutMs : Nat) (readyAt eventAt : Nat → Bool) :
    WaitOutcome :=
  if readyAt 0 then .resolved 0
  else waitV1Go readyAt eventAt timeoutMs timeoutMs 1

/-- Millisecond scan of the current revision: resolve at the first settle
time; no other way to settle. -/
def waitV2Go (readyAt eventAt : Nat → Bool) : Nat → Nat → WaitOutcome
  | 0, _ => .pending
  | fuel + 1, t =>
      if settleReady readyAt eventAt t then .resolved t
      else waitV2Go readyAt eventAt fuel (t + 1)

/-- The current revision of waitForThreeAndLoaders (app.js lines 1665-1738)
observed up to the given horizon: quick-pass, listener, poll, no timer. -/
def waitForThree (horizon : Nat) (readyAt eventAt : Nat → Bool) : WaitOutcome :=
  if readyAt 0 then .resolved 0
  else waitV2Go readyAt eventAt horizon 1

/-- JavaScript toLowerCase over the character list. -/
def jsToLower (s : String) : String := ⟨s.data.map Char.toLower⟩

/-- Does the text start with the pattern (both as character lists)? -/
def charsStartsWith : List Char → List Char → Bool
  | [], _ => true
  | _ :: _, [] => false
  | p :: ps, c :: cs => (p == c) && charsStartsWith ps cs

/-- JavaScript String.prototype.includes over character lists. -/
def charsIncludes (pat : List Char) : List Char → Bool
  | [] => pat.isEmpty
  | c :: cs => charsStartsWith pat (c :: cs) || charsIncludes pat cs

/-- The msg.toLowerCase().includes of initWithDelay, specialised to the word
it greps for. -/
def includesTimeout (msg : String) : Bool :=
  charsIncludes ("timeout".data) (jsToLower msg).data

/-- What initWithDelay does with the settled promise: continue with init on
resolution, switch to the 2D renderer on a rejection whose message contains
the word timeout, try partial init or full fallback on any other rejection,
and keep waiting while the promise is pending. -/
inductive InitAction where
  | initNormal
  | fallback2D
  | partialOrFallback
  | stillWaiting
deriving Repr, DecidableEq

/-- The dispatch in initWithDelay (identical in both revisions). -/
def initWithDelayAction (w : WaitOutcome) : InitAction :=
  match w with
  | .resolved _ => .initNormal
  | .rejected _ msg =>
      if includesTimeout msg then .fallback2D else .partialOrFallback
  | .pending => .stillWaiting

/-- The settings mutation of the timeout-fallback branch of initWithDelay:
remember the previous renderer and switch to the 2D placeholder engine. -/
def applyTimeoutFallback (s : Settings) : Settings :=
  { s with previousRenderer := some s.rendererEngine, rendererEngine := "2d" }

/-- The current wait scan can only resolve or stay pending. -/
lemma waitV2Go_ne_rejected (readyAt eventAt : Nat → Bool) :
    ∀ fuel t r m, waitV2Go readyAt eventAt fuel t ≠ .rejected r m := by
  intro fuel
  induction fuel with
  | zero => intro t r m; simp [waitV2Go]
  | succ n ih =>
      intro t r m
      unfold waitV2Go
      by_cases h : settleReady readyAt eventAt t = true
      · simp [h]
      · simp only [h, if_false, Bool.not_eq_true] at *
        simpa [h] using ih (t + 1) r m

/-- When nothing ever settles, the current wait scan stays pending. -/
lemma waitV2Go_pending (readyAt eventAt : Nat → Bool)
    (hnever : ∀ t, settleReady readyAt eventAt t = false) :
    ∀ fuel t, waitV2Go readyAt eventAt fuel t = .pending := by
  intro fuel
  induction fuel with
  | zero => intro t; simp [waitV2Go]
  | succ n ih => intro t; simp [waitV2Go, hnever t, ih]

/-- Reaching the deadline with no settle makes the earlier revision scan
reject exactly at the deadline. -/
lemma waitV1Go_rejects (readyAt eventAt : Nat → Bool) (timeoutMs : Nat)
    (hquiet : ∀ u, 1 ≤ u → u ≤ timeoutMs → settleReady readyAt eventAt u = false) :
    ∀ fuel t, t + fuel = timeoutMs + 1 → 1 ≤ t → t ≤ timeoutMs →
      waitV1Go readyAt eventAt timeoutMs fuel t = .rejected timeoutMs timeoutMsgText := by
  intro fuel
  induction fuel with
  | zero => intro t hsum h1 ht; omega
  | succ n ih =>
      intro t hsum h1 ht
      unfold waitV1Go
      rw [hquiet t h1 ht]
      simp only [Bool.false_eq_true, if_false]
      by_cases hend : timeoutMs ≤ t
      · have : t = timeoutMs := le_antisymm ht hend
        simp [hend, this]
      · simp only [hend, if_false]
        exact ih (t + 1) (by omega) (by omega) (by omega)

/-- The first settle time wins in the earlier revision: the timer (and any
later settle) is ignored. -/
lemma waitV1Go_resolves (readyAt eventAt : Nat → Bool) (timeoutMs t0 : Nat)
    (ht0 : t0 ≤ timeoutMs) (hs : settleReady readyAt eventAt t0 = true) :
    ∀ fuel t, t + fuel = timeoutMs + 1 → t ≤ t0 →
      (∀ u, t ≤ u → u < t0 → settleReady readyAt eventAt u = false) →
      waitV1Go readyAt eventAt timeoutMs fuel t = .resolved t0 := by
  intro fuel
  induction fuel with
  | zero => intro t hsum hle hq; omega
  | succ n ih =>
      intro t hsum hle hq
      unfold waitV1Go
      by_cases heq : t = t0
      · subst heq; simp [hs]
      · have hlt : t < t0 := lt_of_le_of_ne hle heq
        rw [hq t le_rfl hlt]
        simp only [Bool.false_eq_true, if_false]
        have hnot : ¬ timeoutMs ≤ t := by omega
        simp only [hnot, if_false]
        exact ih (t + 1) (by omega) (by omega) (fun u hu1 hu2 => hq u (by omega) hu2)

/-- Counterexample to claim C2 on the current revision: with the 3D library
never becoming ready and no ready event, the wait is still pending at
horizon 60000 ms, well past the configured 30000 ms timeout, instead of
being rejected with a timeout error. -/
theorem waitForThree_no_timeout_cex :
    waitForThree 60000 (fun _ => false) (fun _ => false) = .pending ∧
    waitForThree 60000 (fun _ => false) (fun _ => false) ≠
      .rejected 30000 timeoutMsgText := by
  have h : waitForThree 60000 (fun _ => false) (fun _ => false) = .pending := by
    unfold waitForThree
    simp only [Bool.false_eq_true, if_false]
    exact waitV2Go_pending _ _ (fun t => by simp [settleReady]) 60000 1
  exact ⟨h, by simp [h]⟩

/-- Claim C2 amended: the current revision of waitForThreeAndLoaders arms no
timer and never rejects, whatever the horizon, so the timeout-driven branch
of initWithDelay (the silent switch to the 2D renderer) is unreachable from
it; the earlier revision did behave as the claim states: with the library
not ready by the deadline it rejects at settings.rendererTimeoutMs with the
timeout message, initWithDelay then switches rendererEngine to 2d keeping
the previous engine recorded, and when a ready signal lands at a poll tick
before the deadline the first settler wins and the timer loser is ignored. -/
theorem waitForThree_timeout_behaviour :
    (∀ horizon readyAt eventAt r m,
        waitForThree horizon readyAt eventAt ≠ .rejected r m)
    ∧ (∀ horizon readyAt eventAt,
        initWithDelayAction (waitForThree horizon readyAt eventAt) ≠ .fallback2D)
    ∧ (∀ timeoutMs readyAt eventAt, 1 ≤ timeoutMs → readyAt 0 = false →
        (∀ u, 1 ≤ u → u ≤ timeoutMs → settleReady readyAt eventAt u = false) →
        waitForThreeV1 timeoutMs readyAt eventAt = .rejected timeoutMs timeoutMsgText
        ∧ initWithDelayAction (waitForThreeV1 timeoutMs readyAt eventAt) = .fallback2D)
    ∧ (∀ s : Settings, (applyTimeoutFallback s).rendererEngine = "2d"
        ∧ (applyTimeoutFallback s).previousRenderer = some s.rendererEngine)
    ∧ (∀ timeoutMs readyAt eventAt t0, readyAt 0 = false →
        1 ≤ t0 → t0 ≤ timeoutMs → settleReady readyAt eventAt t0 = true →
        (∀ u, 1 ≤ u → u < t0 → settleReady readyAt eventAt u = false) →
        waitForThreeV1 timeoutMs readyAt eventAt = .resolved t0) := by
  refine ⟨?_, ?_, ?_, ?_, ?_⟩
  · intro horizon readyAt eventAt r m
    unfold waitForThree
    by_cases h0 : readyAt 0 = true
    · simp [h0]
    · simp only [h0, Bool.false_eq_true, if_false]
      exact waitV2Go_ne_rejected readyAt eventAt horizon 1 r m
  · intro horizon readyAt eventAt
    unfold waitForThree
    by_cases h0 : readyAt 0 = true
    · simp [h0, initWithDelayAction]
    · simp only [h0, Bool.false_eq_true, if_false]
      cases hw : waitV2Go readyAt eventAt horizon 1 with
      | resolved t => simp [initWithDelayAction]
      | rejected r m => exact absurd hw (waitV2Go_ne_rejected readyAt eventAt horizon 1 r m)
      | pending => simp [initWithDelayAction]
  · intro timeoutMs readyAt eventAt h1 h0 hquiet
    have hrej : waitForThreeV1 timeoutMs readyAt eventAt
        = .rejected timeoutMs timeoutMsgText := by
      unfold waitForThreeV1
      rw [h0]
      simp only [Bool.false_eq_true, if_false]
      exact waitV1Go_rejects readyAt eventAt timeoutMs hquiet timeoutMs 1
        (by omega) le_rfl h1
    refine ⟨hrej, ?_⟩
    rw [hrej]
    have hinc : includesTimeout timeoutMsgText = true := by decide
    simp [initWithDelayAction, hinc]
  · intro s
    exact ⟨rfl, rfl⟩
  · intro timeoutMs readyAt eventAt t0 h0 h1 ht0 hs hq
    unfold waitForThreeV1
    rw [h0]
    simp only [Bool.false_eq_true, if_false]
    exact waitV1Go_resolves readyAt eventAt timeoutMs t0 ht0 hs timeoutMs 1
      (by omega) h1 (fun u hu1 hu2 => hq u hu1 hu2)

/-- Witness for the amended C2: the never-ready environment at the default
30000 ms deadline of the earlier revision, and a poll settle at 150 ms. -/
theorem waitForThree_timeout_behaviour_witness :
    initWithDelayAction (waitForThree 60000 (fun _ => false) (fun _ => false))
        ≠ .fallback2D
    ∧ waitForThreeV1 30000 (fun _ => false) (fun _ => false)
        = .rejected 30000 timeoutMsgText
    ∧ waitForThreeV1 30000 (fun t => decide (150 ≤ t)) (fun _ => false)
        = .resolved 150 := by
  refine ⟨waitForThree_timeout_behaviour.2.1 60000 _ _, ?_, ?_⟩
  · exact (waitForThree_timeout_behaviour.2.2.1 30000 _ _ (by omega) rfl
      (fun u hu1 hu2 => by simp [settleReady])).1
  · exact waitForThree_timeout_behaviour.2.2.2.2 30000 _ _ 150 (by simp) (by omega)
      (by omega) (by simp [settleReady]) (fun u hu1 hu2 => by
        simp [settleReady]
        omega)

end Celestis
